import Mathlib

/-!
Verification development for the ESP / WTTP contracts described in this
repository's documentation (docs/02-esp and docs/03-wttp).

The embedding below follows the documentation's own code snippets where it
gives them (keccak-based address calculation in docs/02-esp/03-storage.md,
the royalty distribution function in docs/02-esp/05-royalties.md) and the
documented behaviour of each operation otherwise.  Bytes are modelled as
lists of naturals below 256; machine words use explicit `% 2 ^ 64` masking.
-/

namespace Keccak

/-- Rotate a 64-bit lane left, masked to 64 bits. -/
def rotl64 (x n : Nat) : Nat :=
  ((x <<< (n % 64)) ||| (x >>> (64 - n % 64))) % (2 ^ 64)

/-- Rho step rotation offsets as lane/offset pairs, generated by the FIPS 202
coordinate walk: lane (0,0) rotates by 0; starting from (1,0), step `t`
rotates the current lane by `(t+1)(t+2)/2 mod 64` and moves `(x, y)` to
`(y, 2x+3y mod 5)`. -/
def rhoOffsetTable : List (Nat × Nat) :=
  ((List.range 24).foldl
    (fun (acc : (Nat × Nat) × List (Nat × Nat)) t =>
      ((acc.1.2, (2 * acc.1.1 + 3 * acc.1.2) % 5),
       (acc.1.1 + 5 * acc.1.2, (t + 1) * (t + 2) / 2 % 64) :: acc.2))
    ((1, 0), [(0, 0)])).2

/-- Rho step rotation offsets indexed by lane `x + 5 * y`. -/
def rhoOffsets : List Nat :=
  (List.range 25).map fun i => (rhoOffsetTable.lookup i).getD 0

/-- Keccak-f[1600] round constants. -/
def roundConstants : List Nat :=
  [0x0000000000000001, 0x0000000000008082, 0x800000000000808a, 0x8000000080008000,
   0x000000000000808b, 0x0000000080000001, 0x8000000080008081, 0x8000000000008009,
   0x000000000000008a, 0x0000000000000088, 0x0000000080008009, 0x000000008000000a,
   0x000000008000808b, 0x800000000000008b, 0x8000000000008089, 0x8000000000008003,
   0x8000000000008002, 0x8000000000000080, 0x000000000000800a, 0x800000008000000a,
   0x8000000080008081, 0x8000000000008080, 0x0000000080000001, 0x8000000080008008]

/-- One Keccak-f round: theta, rho, pi, chi, iota on a 25-lane state. -/
def keccakRound (s : List Nat) (rc : Nat) : List Nat :=
  let c := (List.range 5).map fun x =>
    s.getD x 0 ^^^ s.getD (x + 5) 0 ^^^ s.getD (x + 10) 0 ^^^
      s.getD (x + 15) 0 ^^^ s.getD (x + 20) 0
  let d := (List.range 5).map fun x =>
    c.getD ((x + 4) % 5) 0 ^^^ rotl64 (c.getD ((x + 1) % 5) 0) 1
  let a := (List.range 25).map fun i => s.getD i 0 ^^^ d.getD (i % 5) 0
  let b := (List.range 25).map fun i =>
    let x := i % 5
    let y := i / 5
    let j := (x + 3 * y) % 5 + 5 * x
    rotl64 (a.getD j 0) (rhoOffsets.getD j 0)
  let mask := 2 ^ 64 - 1
  (List.range 25).map fun i =>
    let x := i % 5
    let y := i / 5
    let chi := b.getD i 0 ^^^ ((mask ^^^ b.getD ((x + 1) % 5 + 5 * y) 0) &&&
      b.getD ((x + 2) % 5 + 5 * y) 0)
    if i = 0 then chi ^^^ rc else chi

/-- The full Keccak-f[1600] permutation (24 rounds). -/
def keccakF (s : List Nat) : List Nat :=
  roundConstants.foldl keccakRound s

/-- Interpret up to eight bytes as a little-endian 64-bit lane. -/
def bytesToLane (bs : List Nat) : Nat :=
  bs.foldr (fun b acc => b % 256 + 256 * acc) 0

/-- The eight little-endian bytes of a 64-bit lane. -/
def laneBytes (v : Nat) : List Nat :=
  (List.range 8).map fun i => (v >>> (8 * i)) % 256

/-- XOR one 136-byte rate block into the state and permute. -/
def absorbBlock (s : List Nat) (block : List Nat) : List Nat :=
  keccakF ((List.range 25).map fun i =>
    if i < 17 then s.getD i 0 ^^^ bytesToLane ((block.drop (8 * i)).take 8)
    else s.getD i 0)

/-- Absorb a padded message (length a positive multiple of 136 bytes). -/
def absorb (s : List Nat) (l : List Nat) : List Nat :=
  if _h : l.length ≤ 136 then absorbBlock s l
  else absorb (absorbBlock s (l.take 136)) (l.drop 136)
termination_by l.length
decreasing_by simp [List.length_drop]; omega

/-- Multi-rate padding 10*1 with the 0x01 Keccak domain byte. -/
def pad (msg : List Nat) : List Nat :=
  let padLen := 136 - msg.length % 136
  if padLen = 1 then msg ++ [0x81]
  else msg ++ [0x01] ++ List.replicate (padLen - 2) 0 ++ [0x80]

/-- Keccak-256 of a byte sequence, as used by the EVM. -/
def keccak256 (msg : List Nat) : List Nat :=
  let final := absorb (List.replicate 25 0) (pad msg)
  (List.range 4).flatMap fun i => laneBytes (final.getD i 0)

end Keccak

namespace ESP

/-- A byte string: a list of naturals, each below 256. -/
abbrev Bytes := List Nat

/-- Current ESP protocol version (docs/02-esp/02-datapoints.md, Version System). -/
def VERSION : Nat := 2

/-- Packed encoding `abi.encodePacked(_data, _version)` for `bytes` followed by
a `uint8`: the raw data bytes followed by the single version byte. -/
def encodePacked (data : Bytes) (version : Nat) : Bytes :=
  data ++ [version % 256]

/-- Function `calculateDataPointAddress` from docs/02-esp/03-storage.md:
`keccak256(abi.encodePacked(_data, _version))`. -/
def calculateDataPointAddress (data : Bytes) (version : Nat) : Bytes :=
  Keccak.keccak256 (encodePacked data version)

/-- Function `calculateAddress(bytes)` of DataPointStorage: the data point
address at the current protocol version. -/
def calculateAddress (data : Bytes) : Bytes :=
  calculateDataPointAddress data VERSION

/-- DataPointStorage state: `mapping(bytes32 => bytes) private dataPointData`
(docs/02-esp/03-storage.md, Storage Mapping), as an association list. -/
structure DPSState where
  dataPointData : List (Bytes × Bytes)
deriving DecidableEq

/-- The mapping read: stored bytes at an address, empty if absent
(Solidity mappings default to empty `bytes`). -/
def DPSState.dataAt (st : DPSState) (addr : Bytes) : Bytes :=
  (st.dataPointData.lookup addr).getD []

/-- Function `dataPointSize(bytes32)`: size in bytes, `0` if the data does not
exist. -/
def dataPointSize (st : DPSState) (addr : Bytes) : Nat :=
  (st.dataAt addr).length

/-- Function `readDataPoint(bytes32)`: the stored data (empty bytes when
absent; the docs use size 0 as the sentinel for "does not exist"). -/
def readDataPoint (st : DPSState) (addr : Bytes) : Bytes :=
  st.dataAt addr

/-- DataPointStorage errors (docs/02-esp/03-storage.md, Error Handling):
`InvalidData()` for empty input, `DataExists(bytes32)` when storing at an
already occupied address. -/
inductive DPSError
  | InvalidData
  | DataExists (dataPointAddress : Bytes)
deriving DecidableEq

/-- Function `writeDataPoint(bytes memory _data)` (docs/02-esp/03-storage.md):
data cannot be empty, the address must not already be occupied; on success
the record is persisted and the storage address returned. -/
def writeDataPoint (st : DPSState) (data : Bytes) : Except DPSError (Bytes × DPSState) :=
  if data.length = 0 then .error .InvalidData
  else if dataPointSize st (calculateAddress data) ≠ 0 then
    .error (.DataExists (calculateAddress data))
  else .ok (calculateAddress data, ⟨(calculateAddress data, data) :: st.dataPointData⟩)

/-- Royalty bookkeeping for one data point address: the publisher of record
and the gas consumed by the initial `writeDataPoint` (docs/02-esp/05-royalties.md:
"gas usage is automatically tracked and stored"). -/
structure RoyaltyRecord where
  publisher : Nat
  gasUsed : Nat
deriving DecidableEq

/-- DataPointRegistry state: the wrapped DataPointStorage, per-address royalty
records, publisher withdrawable balances, the owner-configurable royalty rate
(docs/02-esp/05-royalties.md: "Configurable rate set by the protocol owner"),
and the protocol's retained fees. -/
structure DPRState where
  dps : DPSState
  royaltyRecords : List (Bytes × RoyaltyRecord)
  balances : List (Nat × Nat)
  royaltyRate : Nat
  protocolBalance : Nat
deriving DecidableEq

/-- Function `getDataPointRoyalty(bytes32)` (docs/02-esp/05-royalties.md):
`royalty_amount = gas_used × royalty_rate`, zero when no royalty record
exists (royalty-free data, or data never registered). -/
def getDataPointRoyalty (st : DPRState) (addr : Bytes) : Nat :=
  match st.royaltyRecords.lookup addr with
  | some rec => rec.gasUsed * st.royaltyRate
  | none => 0

/-- Function `royaltyBalance(address)`: the publisher's withdrawable balance
in wei (zero for unknown publishers). -/
def royaltyBalance (st : DPRState) (publisher : Nat) : Nat :=
  (st.balances.lookup publisher).getD 0

/-- Credit a publisher's balance in the balance map. -/
def creditBalance (bal : List (Nat × Nat)) (publisher amount : Nat) : List (Nat × Nat) :=
  (publisher, (bal.lookup publisher).getD 0 + amount) :: bal

/-- DataPointRegistry errors: `InsufficientRoyaltyPayment(uint256 royaltyCost)`
(docs/02-esp/04-registry.md, Error Handling), `InsufficientBalance` on
over-withdrawal, and storage errors propagated from DataPointStorage. -/
inductive DPRError
  | StorageError (e : DPSError)
  | InsufficientRoyaltyPayment (royaltyCost : Nat)
  | InsufficientBalance
deriving DecidableEq

/-- Function `registerDataPoint(bytes,address)` with attached payment
(docs/02-esp/04-registry.md and 05-royalties.md).  First registration writes
the data and, for a non-zero publisher, records the measured gas of the write
(gas metering is external to this model, so the measured `gasUsed` is an
input).  Re-registration of an existing data point owes
`getDataPointRoyalty`; an insufficient payment reverts with
`InsufficientRoyaltyPayment(royaltyCost)`, otherwise the protocol retains
`royalty_amount / 10` and the original publisher is credited
`royalty_amount - protocol_fee` (docs/02-esp/05-royalties.md, Royalty
Distribution and `calculateRoyaltyDistribution`). -/
def registerDataPoint (st : DPRState) (data : Bytes) (publisher : Nat)
    (payment gasUsed : Nat) : Except DPRError (Bytes × DPRState) :=
  if dataPointSize st.dps (calculateAddress data) = 0 then
    match writeDataPoint st.dps data with
    | .error e => .error (.StorageError e)
    | .ok (a, dps') =>
      if publisher ≠ 0 then
        .ok (a, { st with dps := dps',
                          royaltyRecords := (a, ⟨publisher, gasUsed⟩) :: st.royaltyRecords })
      else .ok (a, { st with dps := dps' })
  else
    if payment < getDataPointRoyalty st (calculateAddress data) then
      .error (.InsufficientRoyaltyPayment (getDataPointRoyalty st (calculateAddress data)))
    else
      match st.royaltyRecords.lookup (calculateAddress data) with
      | some rec =>
        .ok (calculateAddress data,
          { st with
            balances := creditBalance st.balances rec.publisher
              (getDataPointRoyalty st (calculateAddress data)
                - getDataPointRoyalty st (calculateAddress data) / 10),
            protocolBalance := st.protocolBalance
              + getDataPointRoyalty st (calculateAddress data) / 10 })
      | none => .ok (calculateAddress data, st)

/-- Modelled from the spec: `collectRoyalties(uint256 _amount, address
_withdrawTo)` (docs/02-esp/04-registry.md gives the signature and purpose;
the `InsufficientBalance` failure and debit-before-transfer order are from
the spec).  On success the debited state is returned together with the
signalled outgoing transfer `(withdrawTo, amount)`. -/
def collectRoyalties (st : DPRState) (caller amount withdrawTo : Nat) :
    Except DPRError (DPRState × (Nat × Nat)) :=
  if royaltyBalance st caller < amount then .error .InsufficientBalance
  else .ok ({ st with balances := (caller, royaltyBalance st caller - amount) :: st.balances },
            (withdrawTo, amount))

/-- Owner update of the protocol royalty rate (docs/02-esp/05-royalties.md:
"royalty_rate: Configurable rate set by the protocol owner"). -/
def setRoyaltyRate (st : DPRState) (rate : Nat) : DPRState :=
  { st with royaltyRate := rate }

/-- Structure `calculateRoyaltyDistribution` translated from the Economic
Parameters snippet in docs/02-esp/05-royalties.md. -/
structure RoyaltyDistribution where
  protocolFee : Nat
  publisherShare : Nat
  total : Nat
deriving DecidableEq

/-- Function `calculateRoyaltyDistribution(royaltyAmount)` from
docs/02-esp/05-royalties.md: `protocolFee = royaltyAmount / 10` (integer
division), `publisherShare = royaltyAmount - protocolFee`. -/
def calculateRoyaltyDistribution (royaltyAmount : Nat) : RoyaltyDistribution :=
  { protocolFee := royaltyAmount / 10
    publisherShare := royaltyAmount - royaltyAmount / 10
    total := royaltyAmount }

end ESP

namespace WTTP

/-- Resource properties (content type and length) from the
`ResourceMetadata` struct in docs/03-wttp/04-storage.md. -/
structure ResourceProperties where
  contentType : String
  contentLength : Nat
deriving DecidableEq

/-- Struct `ResourceMetadata` from docs/03-wttp/04-storage.md. -/
structure ResourceMetadata where
  properties : ResourceProperties
  size : Nat
  version : Nat
  lastModified : Nat
  header : ESP.Bytes
deriving DecidableEq

/-- The all-zero metadata record a deleted path is reset to
(docs/03-wttp/04-storage.md: "Metadata is automatically reset to zero
values"). -/
def zeroMetadata : ResourceMetadata :=
  { properties := { contentType := "", contentLength := 0 }
    size := 0
    version := 0
    lastModified := 0
    header := [] }

/-- BaseWTTPStorage state (docs/03-wttp/04-storage.md, Resource Management):
`mapping(string path => bytes32[]) private resource` and
`mapping(string path => ResourceMetadata) private metadata`, over the ESP
DataPointStorage that holds the chunk bytes. -/
structure SiteState where
  dps : ESP.DPSState
  resources : List (String × List ESP.Bytes)
  metadata : List (String × ResourceMetadata)
deriving DecidableEq

/-- The chunk-address array of a path (empty when the path has no resource). -/
def SiteState.chunksOf (st : SiteState) (path : String) : List ESP.Bytes :=
  (st.resources.lookup path).getD []

/-- WTTP-layer errors: `_416("Out of Bounds", Range(0, currentLength),
requestedIndex)` from docs/03-wttp/04-storage.md carried as `OutOfBounds`,
plus the 404/416 failures of the read path described in the docs' status
table (docs/03-wttp/06-gateway.md). -/
inductive WTTPError
  | OutOfBounds (lo hi idx : Int)
  | NotFound
  | RangeOutOfBounds
  | RangeNotSatisfiable
deriving DecidableEq

/-- Modelled from the spec: `_updateResource(path, dataPointAddress,
chunkIndex)` of BaseWTTPStorage (docs/03-wttp/04-storage.md names the
function and shows the `_416` revert; the exact bound — an index strictly
beyond `currentChunkCount` is rejected, appending uses exactly
`currentChunkCount` — is from the spec). -/
def updateResource (st : SiteState) (path : String) (dataPointAddress : ESP.Bytes)
    (chunkIndex : Nat) : Except WTTPError SiteState :=
  if chunkIndex > (st.chunksOf path).length then
    .error (.OutOfBounds 0 ((st.chunksOf path).length : Int) (chunkIndex : Int))
  else if chunkIndex = (st.chunksOf path).length then
    .ok { st with resources := (path, st.chunksOf path ++ [dataPointAddress]) :: st.resources }
  else
    .ok { st with resources :=
      (path, (st.chunksOf path).set chunkIndex dataPointAddress) :: st.resources }

/-- Modelled from the spec: resolution of an inclusive chunk range, where
negative indices count from the end and `{0,0}` selects all chunks
(docs/03-wttp/06-gateway.md, Range Request System; `none` is the
out-of-bounds outcome). -/
def resolveChunkRange (count : Nat) (start finish : Int) : Option (Nat × Nat) :=
  if start = 0 ∧ finish = 0 then
    if count = 0 then none else some (0, count - 1)
  else
    let s := if start < 0 then (count : Int) + start else start
    let e := if finish < 0 then (count : Int) + finish else finish
    if 0 ≤ s ∧ s ≤ e ∧ e < (count : Int) then some (s.toNat, e.toNat) else none

/-- Modelled from the spec: `readChunks(path, chunkRange)` — the
`_readResource(path, Range)` read of the chunk-address array; a path with no
resource fails with `NotFound`, a bad range with `RangeOutOfBounds`. -/
def readChunks (st : SiteState) (path : String) (start finish : Int) :
    Except WTTPError (List ESP.Bytes) :=
  if (st.chunksOf path).length = 0 then .error .NotFound
  else
    match resolveChunkRange (st.chunksOf path).length start finish with
    | none => .error .RangeOutOfBounds
    | some (s, e) => .ok (((st.chunksOf path).drop s).take (e + 1 - s))

/-- Function `_deleteResource(path)` (docs/03-wttp/04-storage.md, Deleting
Resources): clears the chunk-address array, resets metadata to zero, and
leaves the underlying ESP data points untouched ("Actual content remains in
ESP (immutable)"). -/
def deleteResource (st : SiteState) (path : String) : SiteState :=
  { st with resources := (path, []) :: st.resources
            metadata := (path, zeroMetadata) :: st.metadata }

/-- Byte offset at which chunk `i` starts, given the per-chunk sizes. -/
def chunkOffset (sizes : List Nat) (i : Nat) : Nat :=
  (sizes.take i).sum

/-- Modelled from the spec: resolution of an inclusive byte range over the
total content size, with negative offsets from the end and `{0,0}` meaning
the entire content; `none` is the `RangeNotSatisfiable` outcome
(docs/03-wttp/06-gateway.md, Byte Ranges). -/
def resolveByteRange (totalSize : Nat) (start finish : Int) : Option (Nat × Nat) :=
  if start = 0 ∧ finish = 0 then
    if totalSize = 0 then none else some (0, totalSize - 1)
  else
    let s := if start < 0 then (totalSize : Int) + start else start
    let e := if finish < 0 then (totalSize : Int) + finish else finish
    if 0 ≤ s ∧ s ≤ e ∧ e < (totalSize : Int) then some (s.toNat, e.toNat) else none

/-- Modelled from the spec: the chunk indices whose byte interval overlaps
the resolved byte range `[s, e]` — exactly the chunks the assembler fetches. -/
def neededChunks (sizes : List Nat) (s e : Nat) : List Nat :=
  (List.range sizes.length).filter fun i =>
    chunkOffset sizes i ≤ e ∧ s < chunkOffset sizes i + sizes.getD i 0

/-- Modelled from the spec: the slice of one fetched chunk (starting at byte
offset `off`) that falls inside the requested byte range `[s, e]`. -/
def sliceChunk (data : List Nat) (off s e : Nat) : List Nat :=
  (data.drop (s - off)).take (e + 1 - off - (s - off))

/-- Modelled from the spec: fetch-and-assemble step of the gateway GET — read
only the overlapping chunks from DataPointStorage, slice the first and last,
concatenate in order.  Returns the assembled bytes and the number of chunk
reads performed. -/
def assembleRange (dps : ESP.DPSState) (addrs : List ESP.Bytes) (s e : Nat) :
    List Nat × Nat :=
  let sizes := addrs.map fun a => ESP.dataPointSize dps a
  let idxs := neededChunks sizes s e
  (idxs.flatMap fun i =>
     sliceChunk (ESP.readDataPoint dps (addrs.getD i [])) (chunkOffset sizes i) s e,
   idxs.length)

/-- Modelled from the spec: the gateway `GET` pipeline
(docs/03-wttp/06-gateway.md) — locate the chunk addresses for the requested
chunk range, resolve the byte range against the total size, then fetch and
assemble only the overlapping chunks.  Returns the assembled bytes and the
chunk-read count. -/
def GET (st : SiteState) (path : String) (chunkStart chunkFinish byteStart byteFinish : Int) :
    Except WTTPError (List Nat × Nat) :=
  match readChunks st path chunkStart chunkFinish with
  | .error e => .error e
  | .ok addrs =>
    match resolveByteRange (addrs.map fun a => ESP.dataPointSize st.dps a).sum
        byteStart byteFinish with
    | none => .error .RangeNotSatisfiable
    | some (s, e) => .ok (assembleRange st.dps addrs s e)

/-- The chunk array produced by a successful chunk write: append at index
`length`, in-place replacement below it. -/
def chunkWriteResult (chunks : List ESP.Bytes) (a : ESP.Bytes) (i : Nat) :
    List ESP.Bytes :=
  if i = chunks.length then chunks ++ [a] else chunks.set i a

end WTTP

/-- The address of the one-byte data point `[72]` ("H"). -/
def exAddr : ESP.Bytes := ESP.calculateAddress [72]

/-- A registry state in which `[72]` is stored and registered by publisher 1
with a measured write gas of 15, at royalty rate 1. -/
def exDPR : ESP.DPRState :=
  { dps := ⟨[(exAddr, [72])]⟩
    royaltyRecords := [(exAddr, ⟨1, 15⟩)]
    balances := []
    royaltyRate := 1
    protocolBalance := 0 }

/-- The registry state after `[72]` is re-registered against `exDPR` with the
exact owed payment of 15 wei. -/
def exDPRAfter : ESP.DPRState :=
  { exDPR with balances := [(1, 14)], protocolBalance := 1 }

/-- A registry state in which publisher 1 has a withdrawable balance of 10. -/
def exLedger : ESP.DPRState :=
  { dps := ⟨[]⟩
    royaltyRecords := []
    balances := [(1, 10)]
    royaltyRate := 1
    protocolBalance := 0 }

set_option maxRecDepth 100000

/-- Handle for chunk 0 of the gateway example. -/
def gwAddr0 : ESP.Bytes := [160]

/-- Handle for chunk 1 of the gateway example. -/
def gwAddr1 : ESP.Bytes := [161]

/-- Handle for chunk 2 of the gateway example. -/
def gwAddr2 : ESP.Bytes := [162]

/-- A site holding a 2500-byte resource of chunk sizes `[1000, 1000, 500]`
(chunk 0 all zeros, chunk 1 all ones, chunk 2 all twos). -/
def gwSite : WTTP.SiteState :=
  { dps := ⟨[(gwAddr0, List.replicate 1000 0), (gwAddr1, List.replicate 1000 1),
             (gwAddr2, List.replicate 500 2)]⟩
    resources := [("/large.bin", [gwAddr0, gwAddr1, gwAddr2])]
    metadata := [] }

/-- A site with a one-chunk resource at path `/x`. -/
def exSite : WTTP.SiteState :=
  { dps := ⟨[]⟩
    resources := [("/x", [[1]])]
    metadata := [] }

/-- C1: for every non-empty byte sequence whose address is not yet occupied,
`writeDataPoint` succeeds, returns exactly `calculateAddress` of the bytes,
and `readDataPoint` of that address in the post state returns exactly the
bytes written. -/
theorem C1_write_read_round_trip (st : ESP.DPSState) (d : ESP.Bytes)
    (h1 : d.length ≠ 0) (h2 : ESP.dataPointSize st (ESP.calculateAddress d) = 0) :
    ESP.writeDataPoint st d
      = .ok (ESP.calculateAddress d, ⟨(ESP.calculateAddress d, d) :: st.dataPointData⟩)
    ∧ ESP.readDataPoint ⟨(ESP.calculateAddress d, d) :: st.dataPointData⟩
        (ESP.calculateAddress d) = d := by
  constructor
  · simp [ESP.writeDataPoint, h1, h2]
  · simp [ESP.readDataPoint, ESP.DPSState.dataAt, List.lookup]

/-- Witness for C1 at the one-byte input `[72]` over the empty store. -/
theorem C1_write_read_round_trip_witness :
    ESP.writeDataPoint ⟨[]⟩ [72]
      = .ok (ESP.calculateAddress [72], ⟨[(ESP.calculateAddress [72], [72])]⟩)
    ∧ ESP.readDataPoint ⟨[(ESP.calculateAddress [72], [72])]⟩
        (ESP.calculateAddress [72]) = [72] :=
  C1_write_read_round_trip ⟨[]⟩ [72] (by decide) rfl

/-- C2 counterexample: with registration cost 15 (not a multiple of 10) and
payment exactly 15, the publisher's balance increases by 14 wei — strictly
more than 90% of 15 — because the code computes the protocol fee by integer
floor division (`royaltyAmount / 10`) and gives the remainder to the
publisher. -/
theorem C2_counterexample :
    ESP.registerDataPoint ⟨⟨[]⟩, [], [], 1, 0⟩ [72] 1 0 15 = .ok (exAddr, exDPR)
    ∧ ESP.registerDataPoint exDPR [72] 0 15 0 = .ok (exAddr, exDPRAfter)
    ∧ ESP.royaltyBalance exDPRAfter 1 = 14
    ∧ 14 * 10 ≠ 15 * 9 := by
  refine ⟨rfl, ?_, rfl, by decide⟩
  simp [ESP.registerDataPoint, ESP.dataPointSize, ESP.DPSState.dataAt,
    ESP.getDataPointRoyalty, ESP.creditBalance, exDPR, exDPRAfter, exAddr, List.lookup]

/-- C2 as amended: re-registering stored content carrying a positive owed
royalty with no payment fails with `InsufficientRoyaltyPayment(owed)`; with
payment exactly equal to the owed amount, the original publisher's balance
increases by exactly `owed - owed / 10` (integer division) and the protocol
retains exactly `owed / 10` — which is exactly 90% / 10% only when the
amount is a multiple of 10. -/
theorem C2_reregistration_royalty (st : ESP.DPRState) (d : ESP.Bytes)
    (pub g owed : Nat) (rec : ESP.RoyaltyRecord)
    (hex : ESP.dataPointSize st.dps (ESP.calculateAddress d) ≠ 0)
    (hrec : st.royaltyRecords.lookup (ESP.calculateAddress d) = some rec)
    (howed : owed = rec.gasUsed * st.royaltyRate)
    (hpos : 0 < owed) :
    ESP.registerDataPoint st d pub 0 g = .error (.InsufficientRoyaltyPayment owed)
    ∧ ESP.registerDataPoint st d pub owed g
      = .ok (ESP.calculateAddress d,
        { st with balances := ESP.creditBalance st.balances rec.publisher (owed - owed / 10),
                  protocolBalance := st.protocolBalance + owed / 10 })
    ∧ ESP.royaltyBalance
        { st with balances := ESP.creditBalance st.balances rec.publisher (owed - owed / 10),
                  protocolBalance := st.protocolBalance + owed / 10 } rec.publisher
      = ESP.royaltyBalance st rec.publisher + (owed - owed / 10) := by
  have hroyal : ESP.getDataPointRoyalty st (ESP.calculateAddress d) = owed := by
    simp [ESP.getDataPointRoyalty, hrec, howed]
  refine ⟨?_, ?_, ?_⟩
  · simp [ESP.registerDataPoint, hex, hroyal, hpos]
  · simp [ESP.registerDataPoint, hex, hroyal, hrec]
  · simp [ESP.royaltyBalance, ESP.creditBalance, List.lookup]

/-- Witness for C2's amended theorem: cost 15, exact payment, publisher 1
gains 14 wei and the protocol retains 1 wei. -/
theorem C2_reregistration_royalty_witness :
    ESP.registerDataPoint exDPR [72] 0 0 0 = .error (.InsufficientRoyaltyPayment 15)
    ∧ ESP.registerDataPoint exDPR [72] 0 15 0
      = .ok (ESP.calculateAddress [72],
        { exDPR with balances := ESP.creditBalance exDPR.balances 1 (15 - 15 / 10),
                     protocolBalance := exDPR.protocolBalance + 15 / 10 })
    ∧ ESP.royaltyBalance
        { exDPR with balances := ESP.creditBalance exDPR.balances 1 (15 - 15 / 10),
                     protocolBalance := exDPR.protocolBalance + 15 / 10 } 1
      = ESP.royaltyBalance exDPR 1 + (15 - 15 / 10) :=
  C2_reregistration_royalty exDPR [72] 0 0 15 ⟨1, 15⟩
    (by simp [exDPR, exAddr, ESP.dataPointSize, ESP.DPSState.dataAt, List.lookup])
    (by simp [exDPR, exAddr, List.lookup])
    rfl (by decide)

/-- C3 counterexample: writing `[72]` a second time after a successful first
write does not succeed as a no-op — it reverts with
`DataExists(dataPointAddress)` (docs/02-esp/03-storage.md: thrown "when
trying to store data at an already occupied address ... Handle duplicate
data"). -/
theorem C3_counterexample :
    ESP.writeDataPoint ⟨[]⟩ [72]
      = .ok (ESP.calculateAddress [72], ⟨[(ESP.calculateAddress [72], [72])]⟩)
    ∧ ESP.writeDataPoint ⟨[(ESP.calculateAddress [72], [72])]⟩ [72]
      = .error (.DataExists (ESP.calculateAddress [72])) := by
  constructor
  · simp [ESP.writeDataPoint, ESP.dataPointSize, ESP.DPSState.dataAt]
  · simp [ESP.writeDataPoint, ESP.dataPointSize, ESP.DPSState.dataAt, List.lookup]

/-- C3 as amended: after a successful `writeDataPoint`, writing the same
bytes again fails with `DataExists` carrying the same address, and the
stored bytes and size are unchanged (they remain those of the first write);
the caller-side no-op pattern is the docs' `safeStoreData` size check. -/
theorem C3_second_write_fails (st : ESP.DPSState) (d a : ESP.Bytes) (st' : ESP.DPSState)
    (h : ESP.writeDataPoint st d = .ok (a, st')) :
    ESP.writeDataPoint st' d = .error (.DataExists a)
    ∧ ESP.readDataPoint st' a = d ∧ ESP.dataPointSize st' a = d.length := by
  unfold ESP.writeDataPoint at h
  split at h
  · exact absurd h (by simp)
  · split at h
    · exact absurd h (by simp)
    · rename_i h1 h2
      obtain ⟨rfl, rfl⟩ := by simpa using h
      refine ⟨?_, ?_, ?_⟩
      · simp [ESP.writeDataPoint, h1, ESP.dataPointSize, ESP.DPSState.dataAt, List.lookup]
      · simp [ESP.readDataPoint, ESP.DPSState.dataAt, List.lookup]
      · simp [ESP.dataPointSize, ESP.DPSState.dataAt, List.lookup]

/-- Witness for C3's amended theorem at the first write of `[72]`. -/
theorem C3_second_write_fails_witness :
    ESP.writeDataPoint ⟨[(ESP.calculateAddress [72], [72])]⟩ [72]
      = .error (.DataExists (ESP.calculateAddress [72]))
    ∧ ESP.readDataPoint ⟨[(ESP.calculateAddress [72], [72])]⟩
        (ESP.calculateAddress [72]) = [72]
    ∧ ESP.dataPointSize ⟨[(ESP.calculateAddress [72], [72])]⟩
        (ESP.calculateAddress [72]) = [72].length :=
  C3_second_write_fails ⟨[]⟩ [72] (ESP.calculateAddress [72])
    ⟨[(ESP.calculateAddress [72], [72])]⟩
    (by simp [ESP.writeDataPoint, ESP.dataPointSize, ESP.DPSState.dataAt])

/-- C4 counterexample: content registered with measured gas 15 at royalty
rate 1 owes 15 wei; after the protocol owner raises the rate to 2 the same
address owes 30 wei — the per-address price does change across
protocol-parameter changes. -/
theorem C4_counterexample :
    ESP.getDataPointRoyalty exDPR exAddr = 15
    ∧ ESP.getDataPointRoyalty (ESP.setRoyaltyRate exDPR 2) exAddr = 30
    ∧ (30 : Nat) ≠ 15 := by
  refine ⟨?_, ?_, by decide⟩ <;>
    simp [ESP.getDataPointRoyalty, ESP.setRoyaltyRate, exDPR, exAddr, List.lookup]

/-- C4 as amended: the royalty owed is the gas captured at the first write
times the current royalty rate — it is unchanged by re-registrations (which
touch only balances), but scales with owner changes of `royalty_rate`. -/
theorem C4_royalty_tariff (st : ESP.DPRState) (d : ESP.Bytes) (pub pay g : Nat)
    (a : ESP.Bytes) (st' : ESP.DPRState)
    (hex : ESP.dataPointSize st.dps (ESP.calculateAddress d) ≠ 0)
    (hok : ESP.registerDataPoint st d pub pay g = .ok (a, st')) :
    (∀ b, ESP.getDataPointRoyalty st' b = ESP.getDataPointRoyalty st b)
    ∧ ∀ r b rec2, st.royaltyRecords.lookup b = some rec2 →
        ESP.getDataPointRoyalty (ESP.setRoyaltyRate st r) b = rec2.gasUsed * r := by
  constructor
  · unfold ESP.registerDataPoint at hok
    rw [if_neg hex] at hok
    split at hok
    · exact absurd hok (by simp)
    · split at hok
      · rename_i rec2 hrec2
        obtain ⟨rfl, rfl⟩ := by simpa using hok
        intro b
        simp [ESP.getDataPointRoyalty]
      · obtain ⟨rfl, rfl⟩ := by simpa using hok
        intro b
        rfl
  · intro r b rec2 h
    simp [ESP.setRoyaltyRate, ESP.getDataPointRoyalty, h]

/-- Witness for C4's amended theorem at the cost-15 example state. -/
theorem C4_royalty_tariff_witness :
    ESP.getDataPointRoyalty exDPRAfter exAddr = ESP.getDataPointRoyalty exDPR exAddr
    ∧ ESP.getDataPointRoyalty (ESP.setRoyaltyRate exDPR 7) exAddr = 15 * 7 :=
  ⟨(C4_royalty_tariff exDPR [72] 0 15 0 exAddr exDPRAfter
      (by simp [exDPR, exAddr, ESP.dataPointSize, ESP.DPSState.dataAt, List.lookup])
      (by simp [ESP.registerDataPoint, ESP.dataPointSize, ESP.DPSState.dataAt,
        ESP.getDataPointRoyalty, ESP.creditBalance, exDPR, exDPRAfter, exAddr,
        List.lookup])).1 exAddr,
   (C4_royalty_tariff exDPR [72] 0 15 0 exAddr exDPRAfter
      (by simp [exDPR, exAddr, ESP.dataPointSize, ESP.DPSState.dataAt, List.lookup])
      (by simp [ESP.registerDataPoint, ESP.dataPointSize, ESP.DPSState.dataAt,
        ESP.getDataPointRoyalty, ESP.creditBalance, exDPR, exDPRAfter, exAddr,
        List.lookup])).2 7 exAddr ⟨1, 15⟩ (by simp [exDPR, exAddr, List.lookup])⟩

/-- C5 counterexample: over chunks of sizes `[1000, 1000, 500]`, the
inclusive byte range `{800, 1700}` ends at byte 1700 < 2000, inside chunk 1:
the gateway reads exactly 2 chunks (0 and 1), not 3, and no byte of chunk 2
is returned. -/
theorem C5_counterexample :
    WTTP.GET gwSite "/large.bin" 0 0 800 1700
      = .ok (List.replicate 200 0 ++ List.replicate 701 1, 2)
    ∧ (2 : Nat) ≠ 3 :=
  ⟨by rfl, by decide⟩

/-- C5 as amended: the byte-range request `{800, 1700}` returns exactly 901
bytes — chunk 0's tail (its last 200 bytes) followed by chunk 1's first 701
bytes — and performs exactly 2 chunk reads; chunk 2 is never fetched. -/
theorem C5_byte_range_assembly :
    WTTP.GET gwSite "/large.bin" 0 0 800 1700
      = .ok (List.replicate 200 0 ++ List.replicate 701 1, 2)
    ∧ (List.replicate 200 (0 : Nat) ++ List.replicate 701 1).length = 901 :=
  ⟨by rfl, by decide⟩

/-- C6: a chunk write at an index strictly beyond the current chunk count
fails with the out-of-bounds error carrying `Range(0, currentChunkCount)`
and the requested index; at any index up to the count it succeeds, the array
grows by exactly one slot only on append at the count, and every index below
the new length remains populated (no sparse holes). -/
theorem C6_chunk_index_bounds (st : WTTP.SiteState) (path : String) (a : ESP.Bytes)
    (i : Nat) :
    (i > (st.chunksOf path).length →
      WTTP.updateResource st path a i
        = .error (.OutOfBounds 0 ((st.chunksOf path).length : Int) (i : Int)))
    ∧ (i ≤ (st.chunksOf path).length →
      WTTP.updateResource st path a i
        = .ok { st with resources :=
            (path, WTTP.chunkWriteResult (st.chunksOf path) a i) :: st.resources }
      ∧ (WTTP.chunkWriteResult (st.chunksOf path) a i).length
          = max (st.chunksOf path).length (i + 1)
      ∧ ∀ j, j < (WTTP.chunkWriteResult (st.chunksOf path) a i).length →
          ((WTTP.chunkWriteResult (st.chunksOf path) a i).get? j).isSome = true) := by
  constructor
  · intro h
    simp [WTTP.updateResource, h]
  · intro h
    by_cases hi : i = (st.chunksOf path).length
    · refine ⟨?_, ?_, ?_⟩
      · simp [WTTP.updateResource, hi, WTTP.chunkWriteResult]
      · simp [WTTP.chunkWriteResult, hi]
      · intro j hj
        rw [List.get?_eq_get hj]
        rfl
    · have hlt : i < (st.chunksOf path).length := lt_of_le_of_ne h hi
      refine ⟨?_, ?_, ?_⟩
      · simp [WTTP.updateResource, hi, WTTP.chunkWriteResult,
          show ¬ i > (st.chunksOf path).length by omega]
      · simp [WTTP.chunkWriteResult, hi]
        omega
      · intro j hj
        rw [List.get?_eq_get hj]
        rfl

/-- Witness for C6 at a one-chunk resource: index 3 is rejected as out of
bounds, index 1 appends making a two-chunk array with both slots populated. -/
theorem C6_chunk_index_bounds_witness :
    WTTP.updateResource exSite "/x" [2] 3
      = .error (.OutOfBounds 0 ((exSite.chunksOf "/x").length : Int) (3 : Int))
    ∧ WTTP.updateResource exSite "/x" [2] 1
      = .ok { exSite with resources :=
          ("/x", WTTP.chunkWriteResult (exSite.chunksOf "/x") [2] 1) :: exSite.resources }
    ∧ (WTTP.chunkWriteResult (exSite.chunksOf "/x") [2] 1).length
        = max (exSite.chunksOf "/x").length 2
    ∧ ((WTTP.chunkWriteResult (exSite.chunksOf "/x") [2] 1).get? 1).isSome = true :=
  ⟨(C6_chunk_index_bounds exSite "/x" [2] 3).1 (by decide),
   ((C6_chunk_index_bounds exSite "/x" [2] 1).2 (by decide)).1,
   ((C6_chunk_index_bounds exSite "/x" [2] 1).2 (by decide)).2.1,
   ((C6_chunk_index_bounds exSite "/x" [2] 1).2 (by decide)).2.2 1 (by decide)⟩

/-- C7: after `deleteResource(path)`, `readChunks(path, {0,0})` fails with
`NotFound`, while the DataPointStorage component is left untouched, so every
chunk address the resource referenced reads back exactly as before. -/
theorem C7_delete_preserves_content_store (st : WTTP.SiteState) (path : String) :
    WTTP.readChunks (WTTP.deleteResource st path) path 0 0 = .error .NotFound
    ∧ (WTTP.deleteResource st path).dps = st.dps
    ∧ ∀ a, ESP.readDataPoint (WTTP.deleteResource st path).dps a
        = ESP.readDataPoint st.dps a := by
  refine ⟨?_, rfl, fun a => rfl⟩
  simp [WTTP.readChunks, WTTP.deleteResource, WTTP.SiteState.chunksOf, List.lookup]

/-- C8: `collectRoyalties(amount, withdrawTo)` fails with
`InsufficientBalance` when the amount exceeds the caller's withdrawable
balance (leaving no state change); on success it debits the balance by
exactly the amount and signals the transfer `(withdrawTo, amount)`. -/
theorem C8_collect_royalties_debit (st : ESP.DPRState) (caller amount withdrawTo : Nat) :
    (ESP.royaltyBalance st caller < amount →
      ESP.collectRoyalties st caller amount withdrawTo = .error .InsufficientBalance)
    ∧ (amount ≤ ESP.royaltyBalance st caller →
      ESP.collectRoyalties st caller amount withdrawTo
        = .ok ({ st with balances :=
                  (caller, ESP.royaltyBalance st caller - amount) :: st.balances },
               (withdrawTo, amount))
      ∧ ESP.royaltyBalance
          { st with balances :=
              (caller, ESP.royaltyBalance st caller - amount) :: st.balances } caller
          + amount = ESP.royaltyBalance st caller) := by
  constructor
  · intro h
    simp [ESP.collectRoyalties, h]
  · intro h
    refine ⟨by simp [ESP.collectRoyalties, Nat.not_lt.2 h], ?_⟩
    have hb : ESP.royaltyBalance
        { st with balances :=
            (caller, ESP.royaltyBalance st caller - amount) :: st.balances } caller
        = ESP.royaltyBalance st caller - amount := by
      simp [ESP.royaltyBalance, List.lookup]
    rw [hb]
    omega

/-- Witness for C8: balance 10 — withdrawing 11 fails, withdrawing 4
succeeds and leaves 6. -/
theorem C8_collect_royalties_debit_witness :
    ESP.collectRoyalties exLedger 1 11 5 = .error .InsufficientBalance
    ∧ (ESP.collectRoyalties exLedger 1 4 5
        = .ok ({ exLedger with balances :=
                  (1, ESP.royaltyBalance exLedger 1 - 4) :: exLedger.balances }, (5, 4))
      ∧ ESP.royaltyBalance
          { exLedger with balances :=
              (1, ESP.royaltyBalance exLedger 1 - 4) :: exLedger.balances } 1
          + 4 = ESP.royaltyBalance exLedger 1) :=
  ⟨(C8_collect_royalties_debit exLedger 1 11 5).1 (by simp [exLedger, ESP.royaltyBalance]),
   (C8_collect_royalties_debit exLedger 1 4 5).2 (by simp [exLedger, ESP.royaltyBalance])⟩

/-- C9: the content address is keccak-256 of the packed concatenation of the
data bytes and the single protocol-version byte, currently 2, so it is
reproducible off-chain from the bytes alone; distinct version bytes always
produce distinct hash inputs (distinct addresses then follow from the
collision resistance the docs assume of keccak-256). -/
theorem C9_address_formula (b : ESP.Bytes) (v w : Nat) (hv : v < 256) (hw : w < 256)
    (hvw : v ≠ w) :
    ESP.calculateAddress b = Keccak.keccak256 (b ++ [2])
    ∧ ESP.encodePacked b v ≠ ESP.encodePacked b w := by
  refine ⟨rfl, ?_⟩
  simp [ESP.encodePacked, Nat.mod_eq_of_lt hv, Nat.mod_eq_of_lt hw, hvw]

/-- Witness for C9 at `b = [72]`, versions 1 and 2. -/
theorem C9_address_formula_witness :
    ESP.calculateAddress [72] = Keccak.keccak256 ([72] ++ [2])
    ∧ ESP.encodePacked [72] 1 ≠ ESP.encodePacked [72] 2 :=
  C9_address_formula [72] 1 2 (by decide) (by decide) (by decide)

/-- C10: the distribution computes the protocol fee as `royaltyAmount / 10`
with floor division and the publisher share as the remainder of the amount,
so the two parts sum exactly to the amount, and when the amount is not a
multiple of 10 the publisher share strictly exceeds 90% of it. -/
theorem C10_royalty_distribution_exact (r : Nat) :
    (ESP.calculateRoyaltyDistribution r).publisherShare
      + (ESP.calculateRoyaltyDistribution r).protocolFee = r
    ∧ (ESP.calculateRoyaltyDistribution r).protocolFee = r / 10
    ∧ (r % 10 ≠ 0 → (ESP.calculateRoyaltyDistribution r).publisherShare * 10 > r * 9) := by
  refine ⟨?_, rfl, ?_⟩
  · simp [ESP.calculateRoyaltyDistribution]
    omega
  · intro h
    simp [ESP.calculateRoyaltyDistribution]
    omega

/-- Witness for C10 at the amount 15: shares 14 + 1, and 140 > 135. -/
theorem C10_royalty_distribution_exact_witness :
    (ESP.calculateRoyaltyDistribution 15).publisherShare
      + (ESP.calculateRoyaltyDistribution 15).protocolFee = 15
    ∧ (ESP.calculateRoyaltyDistribution 15).protocolFee = 15 / 10
    ∧ (ESP.calculateRoyaltyDistribution 15).publisherShare * 10 > 15 * 9 :=
  ⟨(C10_royalty_distribution_exact 15).1, (C10_royalty_distribution_exact 15).2.1,
   (C10_royalty_distribution_exact 15).2.2 (by decide)⟩
